import Mathlib

/-!
Verification development for the chart2radar repository.

The Python sources are embedded shallowly:
* strings are processed as lists of characters (Python str.strip, regex
  matching and int/float parsing become recursive functions on List Char);
* Python ints become ZZ/NN, Python floats become QQ (exact rationals) or,
  where a square root is genuinely needed (cosine similarity, euclidean
  distance), RR;
* Python dicts become association lists in insertion order, with lookup
  returning the first match (Python dicts have unique keys);
* comparisons of np.sqrt values are embedded as comparisons of the squared
  quantities, which is equivalent because sqrt is strictly monotone on
  nonnegative arguments;
* fallible code (raise ValueError) becomes Except String.
-/

namespace Chart2Radar

/-! ## Text token shapes

ocr_extractor.py (ShotChartOCR.is_basketball_stat) and zone_mapper.py
(ShotZoneMapper.is_made_attempts / is_percentage) use the same regular
expression patterns, so the character-level predicates are shared here.
-/

/-- Python str.strip: drop leading and trailing whitespace. -/
def trimChars (cs : List Char) : List Char :=
  ((cs.dropWhile Char.isWhitespace).reverse.dropWhile Char.isWhitespace).reverse

/-- Nonempty all-digit run, the regex piece d+ . -/
def digits1 (cs : List Char) : Bool :=
  !cs.isEmpty && cs.all Char.isDigit

/-- Split a character list on the slash character (Python str.split on /). -/
def splitSlash : List Char → List (List Char)
  | [] => [[]]
  | c :: cs =>
    let r := splitSlash cs
    if c = '/' then [] :: r
    else
      match r with
      | [] => [[c]]
      | h :: t => (c :: h) :: t

/-- zone_mapper.py is_made_attempts and the made/attempts branch of
is_basketball_stat: the anchored regex of digits, slash, digits. -/
def is_made_attempts (text : String) : Bool :=
  match splitSlash (trimChars text.toList) with
  | [a, b] => digits1 a && digits1 b
  | _ => false

/-- Body of the percentage regex: digits, an optional dot, then digits. -/
def pctBody (cs : List Char) : Bool :=
  let ds := cs.takeWhile Char.isDigit
  let rest := cs.dropWhile Char.isDigit
  !ds.isEmpty &&
    (rest.isEmpty || (rest.head? = some '.' && rest.tail.all Char.isDigit))

/-- zone_mapper.py is_percentage and the percentage branch of
is_basketball_stat: digits, optional dot, digits, then a percent sign. -/
def is_percentage (text : String) : Bool :=
  let cs := trimChars text.toList
  match cs.getLast? with
  | some '%' => pctBody cs.dropLast
  | _ => false

/-- The not-available branch of is_basketball_stat: the exact regex
alternatives NA, N/A, na, n/a. -/
def is_na (text : String) : Bool :=
  let cs := trimChars text.toList
  cs = ['N', 'A'] || cs = ['N', '/', 'A'] || cs = ['n', 'a'] || cs = ['n', '/', 'a']

/-- The decimal branch of is_basketball_stat: digits, a mandatory dot,
digits, no percent sign. -/
def is_decimal (text : String) : Bool :=
  let cs := trimChars text.toList
  let rest := cs.dropWhile Char.isDigit
  !(cs.takeWhile Char.isDigit).isEmpty &&
    (match rest with
     | '.' :: fs => !fs.isEmpty && fs.all Char.isDigit
     | _ => false)

/-- ocr_extractor.py ShotChartOCR.is_basketball_stat: strip the text, reject
empty text, then accept the made/attempts, percentage, not-available and
decimal shapes, plus bare digit runs of length at most three. -/
def is_basketball_stat (text : String) : Bool :=
  let cs := trimChars text.toList
  if cs.isEmpty then false
  else
    is_made_attempts text || is_percentage text || is_na text || is_decimal text ||
      (digits1 cs && cs.length ≤ 3)

/-! ## Numeric parsing (zone_mapper.py parse_made_attempts / parse_percentage) -/

/-- Value of a digit run (Python int on a digit string). -/
def digitsToNat (cs : List Char) : ℕ :=
  cs.foldl (fun n c => 10 * n + (c.toNat - 48)) 0

/-- Python float on a string of digits with an optional dot (the shapes this
repository feeds it are exactly those). -/
def decimalToRat (cs : List Char) : ℚ :=
  let ds := cs.takeWhile Char.isDigit
  let rest := cs.dropWhile Char.isDigit
  (digitsToNat ds : ℚ) +
    (match rest with
     | '.' :: fs => (digitsToNat fs : ℚ) / (10 ^ fs.length)
     | _ => 0)

/-- zone_mapper.py ShotZoneMapper.parse_made_attempts. -/
def parse_made_attempts (text : String) : ℤ × ℤ :=
  if is_made_attempts text then
    match splitSlash (trimChars text.toList) with
    | [a, b] => ((digitsToNat a : ℤ), (digitsToNat b : ℤ))
    | _ => (0, 0)
  else (0, 0)

/-- zone_mapper.py ShotZoneMapper.parse_percentage: drop the trailing percent
sign and convert with float. -/
def parse_percentage (text : String) : ℚ :=
  if is_percentage text then decimalToRat (trimChars text.toList).dropLast
  else 0

/-! ## OCR tokens and court zones -/

/-- The fields of an OCR result dict that the zone mapper and the analyzer
read: the text and the derived center coordinates. -/
structure OcrToken where
  text : String
  center_x : ℤ
  center_y : ℤ
deriving DecidableEq

/-- A named rectangular court region, one entry of a zones dict:
name with x_range and y_range. -/
structure ZoneBox where
  name : String
  x_min : ℤ
  x_max : ℤ
  y_min : ℤ
  y_max : ℤ
deriving DecidableEq

/-- zone_mapper.py ShotZoneMapper.point_in_zone. -/
def point_in_zone (x y : ℤ) (z : ZoneBox) : Bool :=
  z.x_min ≤ x && x ≤ z.x_max && z.y_min ≤ y && y ≤ z.y_max

namespace ShotZoneMapper

/-- zone_mapper.py ShotZoneMapper.shot_zones, in dict insertion order. -/
def shot_zones : List ZoneBox :=
  [⟨"Left Corner 3", 0, 150, 300, 500⟩,
   ⟨"Right Corner 3", 650, 800, 300, 500⟩,
   ⟨"Left Wing 3", 50, 250, 150, 300⟩,
   ⟨"Right Wing 3", 550, 750, 150, 300⟩,
   ⟨"Top of Key 3", 250, 550, 50, 200⟩,
   ⟨"Above Break 3", 200, 600, 100, 250⟩,
   ⟨"Left Mid Range", 150, 350, 200, 400⟩,
   ⟨"Right Mid Range", 450, 650, 200, 400⟩,
   ⟨"Paint", 300, 500, 350, 550⟩,
   ⟨"Free Throw Line", 250, 550, 250, 350⟩]

/-- zone_mapper.py ShotZoneMapper.standard_zones. -/
def standard_zones : List String :=
  ["Left Corner 3", "Left Wing 3", "Top of Key 3", "Right Wing 3", "Right Corner 3",
   "Above Break 3", "Left Mid Range", "Free Throw Line", "Right Mid Range", "Paint"]

/-- Squared distance from a point to the center of a zone rectangle.  The
source compares np.sqrt of this quantity; comparing the squares is
equivalent since sqrt is strictly monotone on nonnegative reals. -/
def centerDistSq (x y : ℤ) (z : ZoneBox) : ℚ :=
  ((x : ℚ) - ((z.x_min : ℚ) + (z.x_max : ℚ)) / 2) ^ 2 +
    ((y : ℚ) - ((z.y_min : ℚ) + (z.y_max : ℚ)) / 2) ^ 2

/-- zone_mapper.py ShotZoneMapper.get_closest_zone: fold over the zones
keeping the strictly smallest distance seen so far; the initial distance is
infinity (modelled as none), the initial fallback name is Paint. -/
def get_closest_zone (x y : ℤ) : String :=
  (shot_zones.foldl
    (fun best z =>
      match best.2 with
      | none => (z.name, some (centerDistSq x y z))
      | some m =>
        if centerDistSq x y z < m then (z.name, some (centerDistSq x y z)) else best)
    (("Paint" : String), (none : Option ℚ))).1

/-- zone_mapper.py ShotZoneMapper.get_zone_for_coordinate: first rectangle
containing the point in dict order, otherwise the closest zone. -/
def get_zone_for_coordinate (x y : ℤ) : Option String :=
  match shot_zones.find? (fun z => point_in_zone x y z) with
  | some z => some z.name
  | none => some (get_closest_zone x y)

/-- The zone_stat dict built by extract_zone_stats. -/
structure ZoneStat where
  made : ℤ
  attempts : ℤ
  percentage : ℚ
  zone : Option String
  coordinates : List (ℤ × ℤ)
deriving DecidableEq

/-- One iteration of the extract_zone_stats loop over the tokens of a
group: record the coordinates; a made/attempts token sets made and attempts
and derives the percentage only when attempts is positive and no percentage
has been set yet; a percentage token sets the percentage directly. -/
def extractStep (zs : ZoneStat) (t : OcrToken) : ZoneStat :=
  let zs := { zs with coordinates := zs.coordinates ++ [(t.center_x, t.center_y)] }
  if is_made_attempts t.text then
    let p := parse_made_attempts t.text
    let zs' := { zs with made := p.1, attempts := p.2 }
    if 0 < p.2 ∧ zs.percentage = 0 then
      { zs' with percentage := ((p.1 : ℚ) / (p.2 : ℚ)) * 100 }
    else zs'
  else if is_percentage t.text then
    { zs with percentage := parse_percentage t.text }
  else zs

/-- zone_mapper.py ShotZoneMapper.extract_zone_stats: start from the all-zero
stat, take the zone from the first coordinate of the group, then scan the
group with extractStep. -/
def extract_zone_stats (group : List OcrToken) : ZoneStat :=
  let z0 : ZoneStat := ⟨0, 0, 0, none, []⟩
  let z1 :=
    match group with
    | [] => z0
    | t :: _ => { z0 with zone := get_zone_for_coordinate t.center_x t.center_y }
  group.foldl extractStep z1

/-- Squared euclidean distance between two token centers.  The source
compares np.sqrt of this against the threshold; dist less-or-equal thr is
equivalent to distSq less-or-equal thr squared for a nonnegative
threshold. -/
def distSq (a b : OcrToken) : ℤ :=
  (a.center_x - b.center_x) ^ 2 + (a.center_y - b.center_y) ^ 2

/-- The grouping loop of group_stats_by_proximity with explicit fuel (the
fuel starts at the list length and never runs out, because each round
consumes at least the leader).  Each round takes the first not-yet-used
token as leader, collects every remaining token whose center is within the
threshold of the leader center into its group, and recurses on the rest;
this mirrors the used_indices bookkeeping of the source, where at the outer
iteration for index i every index at most i is already used. -/
def groupsAux (thr : ℤ) : ℕ → List OcrToken → List (List OcrToken)
  | 0, _ => []
  | _, [] => []
  | n + 1, t :: rest =>
    (t :: rest.filter (fun u => decide (distSq t u ≤ thr ^ 2))) ::
      groupsAux thr n (rest.filter (fun u => !decide (distSq t u ≤ thr ^ 2)))

/-- zone_mapper.py ShotZoneMapper.group_stats_by_proximity (the default
proximity_threshold in the source is 100). -/
def group_stats_by_proximity (thr : ℤ) (ocr_results : List OcrToken) :
    List (List OcrToken) :=
  groupsAux thr ocr_results.length ocr_results

end ShotZoneMapper

namespace RadarChartPlotter

/-- radar_chart.py RadarChartPlotter.standard_zones. -/
def standard_zones : List String :=
  ["Left Corner 3", "Left Wing 3", "Top of Key 3", "Right Wing 3", "Right Corner 3",
   "Above Break 3", "Left Mid Range", "Free Throw Line", "Right Mid Range", "Paint"]

end RadarChartPlotter

/-! ## Rounding

Python round uses round-half-to-even; round(x, 1) rounds to one decimal.
-/

/-- Python round to the nearest integer, halves to the even neighbour. -/
def pyRound (q : ℚ) : ℤ :=
  let f := ⌊q⌋
  if q - f < 1 / 2 then f
  else if (1 : ℚ) / 2 < q - f then f + 1
  else if f % 2 = 0 then f else f + 1

/-- Python round(x, 1): round to one decimal place. -/
def round1 (q : ℚ) : ℚ := (pyRound (q * 10) : ℚ) / 10

namespace PlayerDatabase

/-- similarity_finder.py PlayerDatabase.scale_stats_to_games (the identical
static method also appears in database_manager.py as
SQLitePlayerDatabase.scale_stats_to_games): a no-op when original_games is
not positive, otherwise each count is multiplied by
target_games / original_games and rounded to the nearest integer. -/
def scale_stats_to_games (made_shots attempts : List (String × ℤ))
    (original_games : ℤ) (target_games : ℤ) :
    List (String × ℤ) × List (String × ℤ) :=
  if original_games ≤ 0 then (made_shots, attempts)
  else
    let factor : ℚ := (target_games : ℚ) / (original_games : ℚ)
    (made_shots.map (fun p => (p.1, pyRound ((p.2 : ℚ) * factor))),
     attempts.map (fun p => (p.1, pyRound ((p.2 : ℚ) * factor))))

end PlayerDatabase

namespace PlayerSimilarityFinder

/-- similarity_finder.py PlayerSimilarityFinder.standard_zones. -/
def standard_zones : List String :=
  ["Left Corner 3", "Left Wing 3", "Top of Key 3", "Right Wing 3", "Right Corner 3",
   "Left Mid Range", "Left Free Throw", "Right Free Throw", "Right Mid Range", "Paint"]

/-- Python dict .get with a default value, on an insertion-ordered
association list. -/
def lookupD (m : List (String × ℚ)) (k : String) (d : ℚ) : ℚ :=
  (m.lookup k).getD d

/-- The vector built for one player inside normalize_player_data: the
percentages projected onto standard_zones, 0.0 for a missing zone. -/
def vector_of (zone_percentages : List (String × ℚ)) : List ℚ :=
  standard_zones.map (fun zone => lookupD zone_percentages zone 0)

/-- similarity_finder.py PlayerSimilarityFinder.normalize_player_data. -/
def normalize_player_data (player_data : List (String × List (String × ℚ))) :
    List (String × List ℚ) :=
  player_data.map (fun p => (p.1, vector_of p.2))

/-- Dot product of two percentage vectors. -/
def dotQ (v w : List ℚ) : ℚ := (List.zipWith (fun a b => a * b) v w).sum

/-- The np.all(v == 0) test of compute_cosine_similarity. -/
def isZeroVec (v : List ℚ) : Bool := v.all (fun x => x == 0)

/-- similarity_finder.py PlayerSimilarityFinder.compute_cosine_similarity:
0.0 when either vector is all zero, otherwise the standard cosine
similarity (dot product over the product of euclidean norms). -/
noncomputable def compute_cosine_similarity (v w : List ℚ) : ℝ :=
  if isZeroVec v || isZeroVec w then 0
  else ((dotQ v w : ℚ) : ℝ) /
    (Real.sqrt ((dotQ v v : ℚ) : ℝ) * Real.sqrt ((dotQ w w : ℚ) : ℝ))

/-- similarity_finder.py PlayerSimilarityFinder.compute_euclidean_distance:
euclidean distance, normalized by sqrt(n * 100^2), turned into a similarity
and clamped below at 0. -/
noncomputable def compute_euclidean_distance (v w : List ℚ) : ℝ :=
  let dist : ℝ := Real.sqrt (((List.zipWith (fun a b => (a - b) * (a - b)) v w).sum : ℚ) : ℝ)
  let max_distance : ℝ := Real.sqrt ((v.length : ℝ) * 100 ^ 2)
  max 0 (1 - dist / max_distance)

/-- The candidate loop shared by find_most_similar_player and
find_top_similar_players: walk the normalized players in order, skipping
nothing here (the exclude-self skip is applied by the caller), and compute
one similarity per candidate; an unknown method raises at the first
candidate reached. -/
noncomputable def computeSims (method : String) (target_vector : List ℚ) :
    List (String × List ℚ) → Except String (List (String × ℝ))
  | [] => .ok []
  | (name, vec) :: rest =>
    if method = "cosine" then
      (computeSims method target_vector rest).map
        (fun l => (name, compute_cosine_similarity target_vector vec) :: l)
    else if method = "euclidean" then
      (computeSims method target_vector rest).map
        (fun l => (name, compute_euclidean_distance target_vector vec) :: l)
    else .error ("Unknown similarity method: " ++ method)

/-- Insertion step of the stable descending sort below. -/
noncomputable def insertDesc (a : String × ℝ) : List (String × ℝ) → List (String × ℝ)
  | [] => [a]
  | b :: rest => if b.2 ≤ a.2 then a :: b :: rest else b :: insertDesc a rest

/-- Python list.sort with key similarity and reverse=True: stable sort,
highest score first, ties keep original order. -/
noncomputable def sortDesc : List (String × ℝ) → List (String × ℝ)
  | [] => []
  | a :: rest => insertDesc a (sortDesc rest)

/-- Membership of a key in a player-data dict. -/
def containsKey (data : List (String × List (String × ℚ))) (k : String) : Bool :=
  data.any (fun p => p.1 == k)

/-- similarity_finder.py PlayerSimilarityFinder.find_most_similar_player:
error when the target is absent; otherwise normalize every player, compare
the target vector against every player except the target itself when
exclude_self is set, sort descending and return the best, or the sentinel
pair when there was nobody to compare against. -/
noncomputable def find_most_similar_player (target_player : String)
    (player_data : List (String × List (String × ℚ)))
    (method : String) (exclude_self : Bool) : Except String (String × ℝ) :=
  if containsKey player_data target_player then
    let normalized_data := normalize_player_data player_data
    let target_vector := (normalized_data.lookup target_player).getD []
    let candidates :=
      normalized_data.filter (fun p => !(exclude_self && p.1 == target_player))
    match computeSims method target_vector candidates with
    | .error e => .error e
    | .ok sims =>
      match sortDesc sims with
      | [] => .ok ("No similar players found", 0)
      | s :: _ => .ok s
  else .error "Target player not found in player data"

/-- similarity_finder.py PlayerSimilarityFinder.find_top_similar_players:
same loop, but the sorted list is truncated to the first top_n entries. -/
noncomputable def find_top_similar_players (target_player : String)
    (player_data : List (String × List (String × ℚ)))
    (top_n : ℕ) (method : String) (exclude_self : Bool) :
    Except String (List (String × ℝ)) :=
  if containsKey player_data target_player then
    let normalized_data := normalize_player_data player_data
    let target_vector := (normalized_data.lookup target_player).getD []
    let candidates :=
      normalized_data.filter (fun p => !(exclude_self && p.1 == target_player))
    match computeSims method target_vector candidates with
    | .error e => .error e
    | .ok sims => .ok ((sortDesc sims).take top_n)
  else .error "Target player not found in player data"

end PlayerSimilarityFinder

namespace ShotChartAnalyzer

/-- shot_chart_analyzer.py ShotChartAnalyzer.zones, in dict insertion
order. -/
def zones : List ZoneBox :=
  [⟨"Left Corner 3", 50, 120, 20, 80⟩,
   ⟨"Right Corner 3", 650, 720, 20, 80⟩,
   ⟨"Left Mid Range", 170, 210, 100, 160⟩,
   ⟨"Paint", 300, 440, 20, 40⟩,
   ⟨"Free Throw Line", 270, 480, 240, 270⟩,
   ⟨"Left Wing 3", 80, 130, 350, 420⟩,
   ⟨"Right Wing 3", 610, 660, 350, 420⟩,
   ⟨"Top of Key 3", 350, 400, 480, 550⟩,
   ⟨"Right Mid Range", 540, 580, 100, 160⟩]

/-- shot_chart_analyzer.py ShotChartAnalyzer.map_stat_to_zone: first
rectangle containing the stat center, otherwise Unknown Zone. -/
def map_stat_to_zone (t : OcrToken) : String :=
  match zones.find? (fun z => point_in_zone t.center_x t.center_y z) with
  | some z => z.name
  | none => "Unknown Zone"

/-- Whether a character occurs in a string (the Python in operator on str,
as used in the slash and percent filters of analyze_shot_chart). -/
def containsChar (c : Char) (s : String) : Bool := s.toList.contains c

/-- The report row kept per zone by analyze_shot_chart. -/
structure ZoneReport where
  shots_made_attempted : String
  percentage : String
deriving DecidableEq

/-- Python min over tokens with key center_x: the first token with the
smallest center_x. -/
def minByX (t : OcrToken) (rest : List OcrToken) : OcrToken :=
  rest.foldl (fun best u => if u.center_x < best.center_x then u else best) t

/-- Python max over tokens with key center_x: the first token with the
largest center_x. -/
def maxByX (t : OcrToken) (rest : List OcrToken) : OcrToken :=
  rest.foldl (fun best u => if best.center_x < u.center_x then u else best) t

/-- The per-zone processing loop of analyze_shot_chart (the zone rows start
as N/A with percentage 0.0%): tokens whose text contains a slash are shot
stats and tokens containing a percent sign are percentages; the
Free Throw Line row combines exactly two slash tokens, lowest center_x
first, and every other case reports the first slash token. -/
def process_zone (zone_name : String) (stats : List OcrToken) : ZoneReport :=
  if stats.isEmpty then ⟨"N/A", "0.0%"⟩
  else
    let shots := stats.filter (fun s => containsChar '/' s.text)
    let percentages := stats.filter (fun s => containsChar '%' s.text)
    let sma : String :=
      if zone_name = "Free Throw Line" ∧ shots.length = 2 then
        match shots with
        | t :: rest =>
          (minByX t rest).text ++ " + " ++ (maxByX t rest).text
        | [] => "N/A"
      else
        match shots with
        | s :: _ => s.text
        | [] => "N/A"
    let pct : String :=
      match percentages with
      | p :: _ => p.text
      | [] => "0.0%"
    ⟨sma, pct⟩

end ShotChartAnalyzer

/-- Claim C8: the stat token classifier accepts "27/70" (as made/attempts),
"38.6%" (as percentage), "N/A" and "na" (as not-available markers), and
rejects "12345" (a bare digit run longer than three characters) and the
empty string. -/
theorem c8_classifier_examples :
    is_basketball_stat "27/70" = true ∧ is_made_attempts "27/70" = true ∧
    is_basketball_stat "38.6%" = true ∧ is_percentage "38.6%" = true ∧
    is_basketball_stat "N/A" = true ∧ is_na "N/A" = true ∧
    is_basketball_stat "na" = true ∧ is_na "na" = true ∧
    is_basketball_stat "12345" = false ∧
    is_basketball_stat "" = false := by
  decide

/-! ## Claim C1: the canonical zone lists -/

/-- Modelled from the spec: the canonical zone order stated in section 6 of
the spec, kept separate from the source lists so the two can be compared. -/
def canonical_zone_order_spec : List String :=
  ["Left Corner 3", "Left Wing 3", "Top of Key 3", "Right Wing 3", "Right Corner 3",
   "Left Mid Range", "Left Free Throw", "Right Free Throw", "Right Mid Range", "Paint"]

/-- Claim C1 is false on the code: the zone mapper, similarity finder and
radar chart do not all enumerate the same 10 zone names in the same order.
The similarity finder list differs from the zone mapper list (the zone
mapper has Above Break 3 and Free Throw Line where the similarity finder
has the Left and Right Free Throw split). -/
theorem c1_counterexample :
    ¬ (ShotZoneMapper.standard_zones = PlayerSimilarityFinder.standard_zones ∧
       PlayerSimilarityFinder.standard_zones = RadarChartPlotter.standard_zones) := by
  decide

/-- Claim C1 amended: the zone mapper and the radar chart share one
identical 10-name zone list, while the similarity finder uses a different
10-name list, the one the spec states as canonical (Left and Right Free
Throw instead of Above Break 3 and Free Throw Line). -/
theorem c1_zone_lists :
    ShotZoneMapper.standard_zones = RadarChartPlotter.standard_zones ∧
    ShotZoneMapper.standard_zones ≠ PlayerSimilarityFinder.standard_zones ∧
    PlayerSimilarityFinder.standard_zones = canonical_zone_order_spec ∧
    ShotZoneMapper.standard_zones.length = 10 ∧
    PlayerSimilarityFinder.standard_zones.length = 10 := by
  decide

/-! ## Claim C5: scaling identities -/

/-- Rounding an integer-valued rational returns that integer. -/
theorem pyRound_intCast (n : ℤ) : pyRound (n : ℚ) = n := by
  unfold pyRound
  norm_num [Int.floor_intCast]

/-- Claim C5: scaling with equal original and target game counts is the
identity for any positive game count, and scaling with a nonpositive
original game count returns its inputs unchanged whatever the target. -/
theorem c5_scaling_identity (made_shots attempts : List (String × ℤ))
    (g original_games target_games : ℤ) :
    (0 < g →
      PlayerDatabase.scale_stats_to_games made_shots attempts g g =
        (made_shots, attempts)) ∧
    (original_games ≤ 0 →
      PlayerDatabase.scale_stats_to_games made_shots attempts original_games
          target_games =
        (made_shots, attempts)) := by
  constructor
  · intro hg
    have hfac : (g : ℚ) / (g : ℚ) = 1 := div_self (by exact_mod_cast hg.ne')
    have hmap : ∀ l : List (String × ℤ),
        l.map (fun p => (p.1, pyRound ((p.2 : ℚ) * ((g : ℚ) / (g : ℚ))))) = l := by
      intro l
      rw [hfac]
      simp [pyRound_intCast]
    simp only [PlayerDatabase.scale_stats_to_games, not_le.mpr hg, if_false]
    rw [hmap, hmap]
  · intro hog
    simp [PlayerDatabase.scale_stats_to_games, hog]

/-- Witness for claim C5 at concrete inputs. -/
theorem c5_scaling_identity_witness :
    PlayerDatabase.scale_stats_to_games [("Paint", 10)] [("Paint", 20)] 5 5 =
      ([("Paint", 10)], [("Paint", 20)]) ∧
    PlayerDatabase.scale_stats_to_games [("Paint", 10)] [("Paint", 20)] 0 44 =
      ([("Paint", 10)], [("Paint", 20)]) :=
  ⟨(c5_scaling_identity [("Paint", 10)] [("Paint", 20)] 5 0 44).1 (by decide),
   (c5_scaling_identity [("Paint", 10)] [("Paint", 20)] 5 0 44).2 (by decide)⟩

/-! ## Claim C2: the stored percentage of a zone stat -/

/-- A token that is neither made/attempts shaped nor percentage shaped
leaves the made, attempts and percentage fields unchanged. -/
theorem extractStep_inert (zs : ShotZoneMapper.ZoneStat) (t : OcrToken)
    (h1 : is_made_attempts t.text = false) (h2 : is_percentage t.text = false) :
    (ShotZoneMapper.extractStep zs t).made = zs.made ∧
    (ShotZoneMapper.extractStep zs t).attempts = zs.attempts ∧
    (ShotZoneMapper.extractStep zs t).percentage = zs.percentage := by
  simp [ShotZoneMapper.extractStep, h1, h2]

/-- Folding only inert tokens leaves the made, attempts and percentage
fields unchanged. -/
theorem foldl_extractStep_inert (l : List OcrToken)
    (h : ∀ u ∈ l, is_made_attempts u.text = false ∧ is_percentage u.text = false) :
    ∀ zs : ShotZoneMapper.ZoneStat,
      (l.foldl ShotZoneMapper.extractStep zs).made = zs.made ∧
      (l.foldl ShotZoneMapper.extractStep zs).attempts = zs.attempts ∧
      (l.foldl ShotZoneMapper.extractStep zs).percentage = zs.percentage := by
  induction l with
  | nil => intro zs; exact ⟨rfl, rfl, rfl⟩
  | cons u rest ih =>
    intro zs
    have hu := h u (List.mem_cons_self u rest)
    have hrest := ih (fun x hx => h x (List.mem_cons_of_mem u hx))
    have hstep := extractStep_inert zs u hu.1 hu.2
    simp only [List.foldl_cons]
    refine ⟨?_, ?_, ?_⟩
    · rw [(hrest _).1, hstep.1]
    · rw [(hrest _).2.1, hstep.2.1]
    · rw [(hrest _).2.2, hstep.2.2]

/-- extract_zone_stats is a fold from an initial stat whose made, attempts
and percentage are zero. -/
theorem extract_zone_stats_eq_foldl (group : List OcrToken) :
    ∃ z1 : ShotZoneMapper.ZoneStat,
      ShotZoneMapper.extract_zone_stats group =
          group.foldl ShotZoneMapper.extractStep z1 ∧
        z1.made = 0 ∧ z1.attempts = 0 ∧ z1.percentage = 0 := by
  cases group with
  | nil => exact ⟨_, rfl, rfl, rfl, rfl⟩
  | cons t rest => exact ⟨_, rfl, rfl, rfl, rfl⟩

/-- Claim C2 amended: for a group that holds exactly one made/attempts
token and no percentage token, a positive attempts count in the produced
stat forces the stored percentage to be exactly 100 times made over
attempts, with no rounding to one decimal place. -/
theorem c2_percentage_exact (pre post : List OcrToken) (t : OcrToken)
    (hpre : ∀ u ∈ pre, is_made_attempts u.text = false ∧ is_percentage u.text = false)
    (hpost : ∀ u ∈ post, is_made_attempts u.text = false ∧ is_percentage u.text = false)
    (ht : is_made_attempts t.text = true)
    (ha : 0 < (ShotZoneMapper.extract_zone_stats (pre ++ t :: post)).attempts) :
    (ShotZoneMapper.extract_zone_stats (pre ++ t :: post)).percentage =
      100 * ((ShotZoneMapper.extract_zone_stats (pre ++ t :: post)).made : ℚ) /
        ((ShotZoneMapper.extract_zone_stats (pre ++ t :: post)).attempts : ℚ) := by
  obtain ⟨z1, heq, hm0, ha0, hp0⟩ := extract_zone_stats_eq_foldl (pre ++ t :: post)
  rw [heq, List.foldl_append] at ha ⊢
  simp only [List.foldl_cons] at ha ⊢
  have hins := foldl_extractStep_inert pre hpre z1
  have hsp : (pre.foldl ShotZoneMapper.extractStep z1).percentage = 0 :=
    hins.2.2.trans hp0
  have hout := foldl_extractStep_inert post hpost
    (ShotZoneMapper.extractStep (pre.foldl ShotZoneMapper.extractStep z1) t)
  rw [hout.1, hout.2.1, hout.2.2]
  rw [hout.2.1] at ha
  by_cases hpos : 0 < (parse_made_attempts t.text).2
  · have hrec : ShotZoneMapper.extractStep (pre.foldl ShotZoneMapper.extractStep z1) t =
        { pre.foldl ShotZoneMapper.extractStep z1 with
          made := (parse_made_attempts t.text).1,
          attempts := (parse_made_attempts t.text).2,
          percentage := (((parse_made_attempts t.text).1 : ℚ) /
            ((parse_made_attempts t.text).2 : ℚ)) * 100,
          coordinates := (pre.foldl ShotZoneMapper.extractStep z1).coordinates ++
            [(t.center_x, t.center_y)] } := by
      simp [ShotZoneMapper.extractStep, ht, hpos, hsp]
    rw [hrec]
    have hp2 : (((parse_made_attempts t.text).2 : ℚ)) ≠ 0 := by
      exact_mod_cast hpos.ne'
    field_simp
    ring
  · exfalso
    have hrec : (ShotZoneMapper.extractStep
        (pre.foldl ShotZoneMapper.extractStep z1) t).attempts =
        (parse_made_attempts t.text).2 := by
      simp [ShotZoneMapper.extractStep, ht, hpos]
    rw [hrec] at ha
    exact hpos ha

/-- Witness for claim C2 amended: a single made/attempts token. -/
theorem c2_percentage_exact_witness :
    (ShotZoneMapper.extract_zone_stats [⟨"27/70", 100, 100⟩]).percentage =
      100 * ((ShotZoneMapper.extract_zone_stats [⟨"27/70", 100, 100⟩]).made : ℚ) /
        ((ShotZoneMapper.extract_zone_stats [⟨"27/70", 100, 100⟩]).attempts : ℚ) :=
  c2_percentage_exact [] [] ⟨"27/70", 100, 100⟩ (by simp) (by simp) (by decide)
    (by decide)

/-- Claim C2 is false as stated: for the group holding the single
made/attempts token 1/3 (no percentage token anywhere in the group), the
stored percentage is 100/3, not round-to-one-decimal of 100 times made over
attempts, which is 33.3. -/
theorem c2_counterexample :
    0 < (ShotZoneMapper.extract_zone_stats [⟨"1/3", 300, 400⟩]).attempts ∧
    is_percentage "1/3" = false ∧
    (ShotZoneMapper.extract_zone_stats [⟨"1/3", 300, 400⟩]).percentage ≠
      round1 (100 * ((ShotZoneMapper.extract_zone_stats [⟨"1/3", 300, 400⟩]).made : ℚ) /
        ((ShotZoneMapper.extract_zone_stats [⟨"1/3", 300, 400⟩]).attempts : ℚ)) := by
  have h : ShotZoneMapper.extract_zone_stats [⟨"1/3", 300, 400⟩] =
      ⟨1, 3, (1 : ℚ) / 3 * 100, some "Left Mid Range", [(300, 400)]⟩ := rfl
  refine ⟨by decide, by decide, ?_⟩
  rw [h]
  norm_num [round1, pyRound]

/-! ## Claim C3: proximity grouping -/

/-- Every member of a produced group is within the threshold of the first
token of that group, at any fuel. -/
theorem groupsAux_radius (thr : ℤ) :
    ∀ (fuel : ℕ) (ts g : List OcrToken),
      g ∈ ShotZoneMapper.groupsAux thr fuel ts →
      ∃ leader tl, g = leader :: tl ∧
        ∀ u ∈ tl, ShotZoneMapper.distSq leader u ≤ thr ^ 2 := by
  intro fuel
  induction fuel with
  | zero =>
    intro ts g hg
    simp [ShotZoneMapper.groupsAux] at hg
  | succ n ih =>
    intro ts g hg
    cases ts with
    | nil => simp [ShotZoneMapper.groupsAux] at hg
    | cons t rest =>
      rw [ShotZoneMapper.groupsAux, List.mem_cons] at hg
      rcases hg with rfl | hg
      · refine ⟨t, _, rfl, fun u hu => ?_⟩
        exact of_decide_eq_true (List.mem_filter.mp hu).2
      · exact ih _ g hg

/-- Claim C3 amended: grouping is leader based, not single link.  Every
group produced by group_stats_by_proximity consists of a leader token
followed by tokens each within the pixel threshold of that leader; tokens
reachable only through a chain of close pairs are not merged. -/
theorem c3_leader_radius (thr : ℤ) (ts g : List OcrToken)
    (hg : g ∈ ShotZoneMapper.group_stats_by_proximity thr ts) :
    ∃ leader tl, g = leader :: tl ∧
      ∀ u ∈ tl, ShotZoneMapper.distSq leader u ≤ thr ^ 2 :=
  groupsAux_radius thr ts.length ts g hg

/-- Three collinear tokens, each consecutive pair exactly at the
threshold. -/
def chainTokA : OcrToken := ⟨"5/10", 0, 0⟩

/-- Middle token of the chain. -/
def chainTokB : OcrToken := ⟨"8/12", 100, 0⟩

/-- Last token of the chain. -/
def chainTokC : OcrToken := ⟨"3/7", 200, 0⟩

/-- Witness for claim C3 amended at the concrete chain input. -/
theorem c3_leader_radius_witness :
    [chainTokA, chainTokB] ∈
        ShotZoneMapper.group_stats_by_proximity 100 [chainTokA, chainTokB, chainTokC] ∧
    (∃ leader tl, [chainTokA, chainTokB] = leader :: tl ∧
      ∀ u ∈ tl, ShotZoneMapper.distSq leader u ≤ 100 ^ 2) :=
  ⟨by decide,
   c3_leader_radius 100 [chainTokA, chainTokB, chainTokC] [chainTokA, chainTokB]
     (by decide)⟩

/-- Claim C3 is false as stated: tokens at x = 0, 100, 200 with threshold
100 form a chain (consecutive distances are within the threshold), yet the
first and last tokens do not end up in the same group. -/
theorem c3_counterexample :
    ShotZoneMapper.distSq chainTokA chainTokB ≤ 100 ^ 2 ∧
    ShotZoneMapper.distSq chainTokB chainTokC ≤ 100 ^ 2 ∧
    ShotZoneMapper.group_stats_by_proximity 100 [chainTokA, chainTokB, chainTokC] =
      [[chainTokA, chainTokB], [chainTokC]] ∧
    ¬ ∃ g ∈ ShotZoneMapper.group_stats_by_proximity 100
        [chainTokA, chainTokB, chainTokC], chainTokA ∈ g ∧ chainTokC ∈ g := by
  decide

/-! ## Claim C4: similarity vectors -/

/-- A dict lookup with default either returns the default or the value of
some entry of the dict. -/
theorem lookupD_eq_default_or_mem (m : List (String × ℚ)) (k : String) (d : ℚ) :
    PlayerSimilarityFinder.lookupD m k d = d ∨
      ∃ p ∈ m, PlayerSimilarityFinder.lookupD m k d = p.2 := by
  induction m with
  | nil => left; rfl
  | cons a rest ih =>
    by_cases h : (k == a.1) = true
    · right
      refine ⟨a, List.mem_cons_self a rest, ?_⟩
      obtain ⟨k1, v⟩ := a
      simp only [PlayerSimilarityFinder.lookupD, List.lookup] at *
      rw [h]
      rfl
    · obtain ⟨k1, v⟩ := a
      have hl : PlayerSimilarityFinder.lookupD ((k1, v) :: rest) k d =
          PlayerSimilarityFinder.lookupD rest k d := by
        simp only [PlayerSimilarityFinder.lookupD, List.lookup]
        rw [Bool.of_not_eq_true h]
      rw [hl]
      rcases ih with h1 | ⟨p, hp, h2⟩
      · left; exact h1
      · right; exact ⟨p, List.mem_cons_of_mem _ hp, h2⟩

/-- Claim C4 amended: the similarity vector always has length exactly 10,
and when every percentage in the input mapping lies in the interval
0 to 100 then so does every vector component (a missing zone contributes
0.0); the code does no clamping, so the bound on components is inherited
from the input rather than enforced. -/
theorem c4_vector_length_and_bounds (zone_percentages : List (String × ℚ))
    (hb : ∀ p ∈ zone_percentages, 0 ≤ p.2 ∧ p.2 ≤ 100) :
    (PlayerSimilarityFinder.vector_of zone_percentages).length = 10 ∧
    ∀ c ∈ PlayerSimilarityFinder.vector_of zone_percentages, 0 ≤ c ∧ c ≤ 100 := by
  constructor
  · rfl
  · intro c hc
    rw [PlayerSimilarityFinder.vector_of, List.mem_map] at hc
    obtain ⟨z, _, rfl⟩ := hc
    rcases lookupD_eq_default_or_mem zone_percentages z 0 with h | ⟨p, hp, h⟩
    · rw [h]; norm_num
    · rw [h]; exact hb p hp

/-- Witness for claim C4 amended at a concrete in-range mapping. -/
theorem c4_vector_length_and_bounds_witness :
    (PlayerSimilarityFinder.vector_of [("Paint", 50)]).length = 10 ∧
    ∀ c ∈ PlayerSimilarityFinder.vector_of [("Paint", 50)], 0 ≤ c ∧ c ≤ 100 :=
  c4_vector_length_and_bounds [("Paint", 50)] (by decide)

/-- Claim C4 is false as stated: the input mapping taking Paint to 150
produces a vector of the right length whose Paint component is 150, outside
the interval 0 to 100 — the code never clamps components. -/
theorem c4_counterexample :
    (PlayerSimilarityFinder.vector_of [("Paint", 150)]).length = 10 ∧
    ¬ (∀ c ∈ PlayerSimilarityFinder.vector_of [("Paint", 150)], 0 ≤ c ∧ c ≤ 100) := by
  have hv : PlayerSimilarityFinder.vector_of [("Paint", 150)] =
      [0, 0, 0, 0, 0, 0, 0, 0, 0, 150] := rfl
  refine ⟨rfl, fun hall => ?_⟩
  have h150 := hall 150 (by rw [hv]; simp)
  have : ¬ ((150 : ℚ) ≤ 100) := by decide
  exact this h150.2

/-! ## Claim C7: cosine similarity of a vector with itself, and with zero -/

/-- The dot product of a vector with itself is nonnegative. -/
theorem dotQ_self_nonneg (v : List ℚ) : 0 ≤ PlayerSimilarityFinder.dotQ v v := by
  induction v with
  | nil => simp [PlayerSimilarityFinder.dotQ]
  | cons x rest ih =>
    have : PlayerSimilarityFinder.dotQ (x :: rest) (x :: rest) =
        x * x + PlayerSimilarityFinder.dotQ rest rest := by
      simp [PlayerSimilarityFinder.dotQ]
    rw [this]
    have := mul_self_nonneg x
    linarith

/-- The dot product of a not-all-zero vector with itself is positive. -/
theorem dotQ_self_pos (v : List ℚ)
    (h : PlayerSimilarityFinder.isZeroVec v = false) :
    0 < PlayerSimilarityFinder.dotQ v v := by
  induction v with
  | nil => simp [PlayerSimilarityFinder.isZeroVec] at h
  | cons x rest ih =>
    have hcons : PlayerSimilarityFinder.dotQ (x :: rest) (x :: rest) =
        x * x + PlayerSimilarityFinder.dotQ rest rest := by
      simp [PlayerSimilarityFinder.dotQ]
    rw [hcons]
    rw [PlayerSimilarityFinder.isZeroVec, List.all_cons,
      Bool.and_eq_false_iff] at h
    rcases h with h | h
    · have hx : x ≠ 0 := by simpa using h
      have h1 : 0 < x * x := mul_self_pos.mpr hx
      have h2 := dotQ_self_nonneg rest
      linarith
    · have h1 := ih h
      have h2 := mul_self_nonneg x
      linarith

/-- Claim C7: cosine similarity of any nonzero vector with itself is
exactly 1, and cosine similarity is 0 whenever either argument is the
all-zero vector. -/
theorem c7_cosine_self_one_zero_zero :
    (∀ v : List ℚ, PlayerSimilarityFinder.isZeroVec v = false →
      PlayerSimilarityFinder.compute_cosine_similarity v v = 1) ∧
    (∀ v w : List ℚ, PlayerSimilarityFinder.isZeroVec v = true →
      PlayerSimilarityFinder.compute_cosine_similarity v w = 0 ∧
      PlayerSimilarityFinder.compute_cosine_similarity w v = 0) := by
  constructor
  · intro v hv
    have hd : 0 < PlayerSimilarityFinder.dotQ v v := dotQ_self_pos v hv
    have hdR : (0 : ℝ) < ((PlayerSimilarityFinder.dotQ v v : ℚ) : ℝ) := by
      exact_mod_cast hd
    rw [PlayerSimilarityFinder.compute_cosine_similarity]
    rw [hv]
    simp only [Bool.false_or]
    rw [if_neg Bool.false_ne_true]
    rw [Real.mul_self_sqrt hdR.le]
    exact div_self hdR.ne'
  · intro v w hv
    constructor
    · rw [PlayerSimilarityFinder.compute_cosine_similarity]
      rw [if_pos (by simp [hv])]
    · rw [PlayerSimilarityFinder.compute_cosine_similarity]
      rw [if_pos (by simp [hv])]

/-- Witness for claim C7 at concrete vectors. -/
theorem c7_cosine_witness :
    PlayerSimilarityFinder.isZeroVec [3, 4] = false ∧
    PlayerSimilarityFinder.compute_cosine_similarity [3, 4] [3, 4] = 1 ∧
    PlayerSimilarityFinder.isZeroVec [0, 0] = true ∧
    PlayerSimilarityFinder.compute_cosine_similarity [0, 0] [3, 4] = 0 :=
  ⟨by decide, c7_cosine_self_one_zero_zero.1 [3, 4] (by decide), by decide,
   (c7_cosine_self_one_zero_zero.2 [0, 0] [3, 4] (by decide)).1⟩

/-! ## Claims C6 and C10: the candidate loop of the similarity operations -/

/-- Filtering players on their name commutes with normalization, which
keeps names and only rebuilds vectors. -/
theorem normalize_filter_comm (data : List (String × List (String × ℚ)))
    (q : String → Bool) :
    (PlayerSimilarityFinder.normalize_player_data data).filter (fun p => q p.1) =
      PlayerSimilarityFinder.normalize_player_data
        (data.filter (fun p => q p.1)) := by
  induction data with
  | nil => rfl
  | cons a rest ih =>
    simp only [PlayerSimilarityFinder.normalize_player_data, List.map_cons,
      List.filter_cons] at ih ⊢
    by_cases h : q a.1 <;> simp [h, ih]

/-- With a method other than cosine and euclidean, the candidate loop
raises the unknown-method error as soon as one candidate exists. -/
theorem computeSims_unknown_method (method : String) (tv : List ℚ)
    (hm1 : method ≠ "cosine") (hm2 : method ≠ "euclidean")
    (cands : List (String × List ℚ)) (hne : cands ≠ []) :
    PlayerSimilarityFinder.computeSims method tv cands =
      .error ("Unknown similarity method: " ++ method) := by
  obtain ⟨c, cs, rfl⟩ := List.exists_cons_of_ne_nil hne
  obtain ⟨nm, vec⟩ := c
  rw [PlayerSimilarityFinder.computeSims]
  rw [if_neg hm1, if_neg hm2]

/-- Claim C6 amended: with a method other than cosine and euclidean, both
similarity operations surface the unknown-method error with no fallback,
whenever the target is present and at least one candidate player is
iterated (some entry survives the exclude-self filter); with no candidates
the loop body never runs and no error is raised. -/
theorem c6_unknown_method_error (target method : String)
    (data : List (String × List (String × ℚ))) (es : Bool) (n : ℕ)
    (hm1 : method ≠ "cosine") (hm2 : method ≠ "euclidean")
    (ht : PlayerSimilarityFinder.containsKey data target = true)
    (hc : data.filter (fun p => !(es && p.1 == target)) ≠ []) :
    PlayerSimilarityFinder.find_most_similar_player target data method es =
      .error ("Unknown similarity method: " ++ method) ∧
    PlayerSimilarityFinder.find_top_similar_players target data n method es =
      .error ("Unknown similarity method: " ++ method) := by
  have hfc := normalize_filter_comm data (fun s => !(es && s == target))
  have hcand : (PlayerSimilarityFinder.normalize_player_data data).filter
      (fun p => !(es && p.1 == target)) ≠ [] := by
    rw [hfc]
    intro h
    rw [PlayerSimilarityFinder.normalize_player_data, List.map_eq_nil_iff] at h
    exact hc h
  constructor
  · simp only [PlayerSimilarityFinder.find_most_similar_player, ht, if_true]
    rw [computeSims_unknown_method method _ hm1 hm2 _ hcand]
  · simp only [PlayerSimilarityFinder.find_top_similar_players, ht, if_true]
    rw [computeSims_unknown_method method _ hm1 hm2 _ hcand]

/-- Witness for claim C6 amended at a concrete store with one candidate. -/
theorem c6_unknown_method_error_witness :
    PlayerSimilarityFinder.find_most_similar_player "A"
        [("A", [("Paint", 50)]), ("B", [("Paint", 40)])] "manhattan" true =
      .error ("Unknown similarity method: " ++ "manhattan") ∧
    PlayerSimilarityFinder.find_top_similar_players "A"
        [("A", [("Paint", 50)]), ("B", [("Paint", 40)])] 5 "manhattan" true =
      .error ("Unknown similarity method: " ++ "manhattan") :=
  c6_unknown_method_error "A" "manhattan"
    [("A", [("Paint", 50)]), ("B", [("Paint", 40)])] true 5
    (by decide) (by decide) (by decide) (by decide)

/-- Claim C6 is false as stated: when the store holds only the target
itself (and exclude-self is set) the loop over candidates never runs, so an
unknown method produces the sentinel result instead of the unknown-method
error, even though the target is present. -/
theorem c6_counterexample :
    ("manhattan" ≠ "cosine" ∧ "manhattan" ≠ "euclidean" ∧
      PlayerSimilarityFinder.containsKey [("A", [("Paint", 50)])] "A" = true) ∧
    PlayerSimilarityFinder.find_most_similar_player "A" [("A", [("Paint", 50)])]
        "manhattan" true = .ok ("No similar players found", 0) ∧
    PlayerSimilarityFinder.find_top_similar_players "A" [("A", [("Paint", 50)])]
        5 "manhattan" true = .ok [] := by
  exact ⟨⟨by decide, by decide, by decide⟩, rfl, rfl⟩

/-- Claim C10: when the target player is present but the store holds no
other player (and exclude-self is set), find_most_similar_player raises no
error and returns the sentinel pair, whatever the method string. -/
theorem c10_sentinel_no_candidates (target method : String)
    (data : List (String × List (String × ℚ)))
    (ht : PlayerSimilarityFinder.containsKey data target = true)
    (honly : ∀ p ∈ data, p.1 = target) :
    PlayerSimilarityFinder.find_most_similar_player target data method true =
      .ok ("No similar players found", 0) := by
  have hfc := normalize_filter_comm data (fun s => !(true && s == target))
  have hnil : data.filter (fun p => !(true && p.1 == target)) = [] := by
    rw [List.filter_eq_nil_iff]
    intro p hp
    simp [honly p hp]
  have hcand : (PlayerSimilarityFinder.normalize_player_data data).filter
      (fun p => !(true && p.1 == target)) = [] := by
    rw [hfc, hnil]
    rfl
  simp only [PlayerSimilarityFinder.find_most_similar_player, ht, if_true, hcand]
  rfl

/-- Witness for claim C10 at a concrete singleton store. -/
theorem c10_sentinel_no_candidates_witness :
    PlayerSimilarityFinder.find_most_similar_player "A" [("A", [("Paint", 50)])]
        "cosine" true = .ok ("No similar players found", 0) :=
  c10_sentinel_no_candidates "A" "cosine" [("A", [("Paint", 50)])]
    (by decide) (by simp)

/-! ## Claim C9: the free-throw-line combine -/

/-- Claim C9 amended: when exactly two tokens whose text contains a slash
fall in the free-throw-line zone (the guard of the source counts
slash-containing tokens, not made/attempts shapes), the reported stat joins
the two texts in ascending order of horizontal center coordinate. -/
theorem c9_ft_combine (zstats : List OcrToken) (a b : OcrToken)
    (hfil : zstats.filter (fun s => ShotChartAnalyzer.containsChar '/' s.text) = [a, b])
    (hx : a.center_x < b.center_x) :
    (ShotChartAnalyzer.process_zone "Free Throw Line" zstats).shots_made_attempted =
      a.text ++ " + " ++ b.text := by
  cases zstats with
  | nil => simp at hfil
  | cons h0 t0 =>
    rw [ShotChartAnalyzer.process_zone]
    rw [if_neg (by simp : ¬ (h0 :: t0).isEmpty = true)]
    simp only [hfil]
    rw [if_pos ⟨trivial, rfl⟩]
    simp only [ShotChartAnalyzer.minByX, ShotChartAnalyzer.maxByX,
      List.foldl_cons, List.foldl_nil]
    rw [if_neg (not_lt.mpr hx.le), if_pos hx]

/-- Witness for claim C9 amended: the two free-throw tokens of the spec
scenario, at x 280 and x 420. -/
theorem c9_ft_combine_witness :
    (ShotChartAnalyzer.process_zone "Free Throw Line"
        [⟨"5/10", 280, 250⟩, ⟨"8/12", 420, 255⟩]).shots_made_attempted =
      "5/10 + 8/12" :=
  c9_ft_combine [⟨"5/10", 280, 250⟩, ⟨"8/12", 420, 255⟩]
    ⟨"5/10", 280, 250⟩ ⟨"8/12", 420, 255⟩ (by decide) (by decide)

/-- Claim C9 is false as stated: with exactly two made/attempts tokens in
the free-throw-line zone plus one not-available token (whose text also
contains a slash), the guard sees three slash tokens and reports only the
first token instead of the combination. -/
theorem c9_counterexample :
    (∀ u ∈ ([⟨"5/10", 280, 250⟩, ⟨"N/A", 350, 250⟩, ⟨"8/12", 420, 255⟩] :
        List OcrToken), ShotChartAnalyzer.map_stat_to_zone u = "Free Throw Line") ∧
    (([⟨"5/10", 280, 250⟩, ⟨"N/A", 350, 250⟩, ⟨"8/12", 420, 255⟩] :
        List OcrToken).filter (fun s => is_made_attempts s.text)).length = 2 ∧
    (ShotChartAnalyzer.process_zone "Free Throw Line"
        [⟨"5/10", 280, 250⟩, ⟨"N/A", 350, 250⟩, ⟨"8/12", 420, 255⟩]).shots_made_attempted =
      "5/10" ∧
    "5/10" ≠ "5/10" ++ " + " ++ "8/12" := by
  decide

end Chart2Radar
